import Mathlib

/-!
Shallow embedding of the zopen MCP server (zopen-server.go).

The Go program is a protocol adapter: each tool handler marshals its typed
parameters into an argument vector, runs a child process (locally, or wrapped
in an SSH invocation in remote mode), and turns the captured stdout/stderr and
exit code into an MCP result envelope (text plus error flag).

Everything external to the program — what the operating system does when a
process is spawned, PATH lookups, filesystem stat, filepath.Abs — is modelled
by a `World` oracle.  Each handler is embedded as a pure function of the
configuration, the world and its parameters, returning the result envelope
together with the trace of the child-process executions it performed, so that
"no child process is spawned" is the statement that the trace is empty.
-/

/-- Outcome of one child-process execution: the executable could not be found
(Go's exec.ErrNotFound), or the process exited with the given code after
producing the given stdout and stderr. -/
inductive ExecOutcome where
  | notFound : ExecOutcome
  | exited : Int → String → String → ExecOutcome
deriving DecidableEq, Repr

/-- Record of one child-process execution attempt: the working directory set
on the command (Go cmd.Dir; none = inherit) and the argument vector. -/
structure Spawn where
  dir : Option String
  argv : List String
deriving DecidableEq, Repr

/-- External-behaviour oracle.  `run dir argv` is the outcome of executing
`argv` with optional working directory `dir`; `lookPath` models exec.LookPath;
`abs` models filepath.Abs (error text on failure); `statExists p` is false
exactly when os.Stat(p) fails with os.IsNotExist. -/
structure World where
  run : Option String → List String → ExecOutcome
  lookPath : String → Option String
  abs : String → Except String String
  statExists : String → Bool

/-- Server startup configuration, parsed from command-line flags
(--remote, --host, --user, --key, --port, --zopen-path). -/
structure Config where
  Remote : Bool
  Host : String
  User : String
  Key : String
  Port : Int
  ZopenPath : String
deriving DecidableEq, Repr

/-- Result of an executor RunCommand: Go returns (string, error); `err` is the
non-nil-error case, `ok` the returned output string. -/
inductive RunResult where
  | ok : String → RunResult
  | err : String → RunResult
deriving DecidableEq, Repr

/-- MCP result envelope: the single text content plus the IsError flag. -/
structure CallToolResult where
  Text : String
  IsError : Bool
deriving DecidableEq, Repr

/-- Go strings.HasPrefix, modelled on the decoded character sequence of the
string. -/
def textStartsWith (s pat : String) : Bool :=
  pat.data.isPrefixOf s.data

/-- buildSSHCommand (zopen-server.go lines 55-83): the full SSH argument
vector for remote execution of a zopen command. -/
def buildSSHCommand (cfg : Config) (zopenArgs : List String) : List String :=
  let sshArgs := ["-p", toString cfg.Port]
  let sshArgs := if cfg.Key ≠ "" then sshArgs ++ ["-i", cfg.Key] else sshArgs
  let sshArgs := sshArgs ++
    ["-o", "StrictHostKeyChecking=no", "-o", "UserKnownHostsFile=/dev/null", "-o", "LogLevel=ERROR"]
  let target := if cfg.User ≠ "" then cfg.User ++ "@" ++ cfg.Host else cfg.Host
  let sshArgs := sshArgs ++ [target]
  let quotedArgs := zopenArgs.map fun arg => "\"" ++ arg ++ "\""
  let innerCommand := ". ~/.profile && zopen " ++ String.intercalate " " quotedArgs
  let remoteCmd := "/bin/sh -c \"" ++ innerCommand ++ "\""
  "ssh" :: (sshArgs ++ [remoteCmd])

/-- The argument vector ZopenExecutor.RunCommand executes (lines 87-92): the
SSH wrapper in remote mode, otherwise the literal "zopen" binary name —
the ZopenPath configuration field is never consulted by the source. -/
def zopenCommandToRun (cfg : Config) (zopenArgs : List String) : List String :=
  if cfg.Remote then buildSSHCommand cfg zopenArgs else "zopen" :: zopenArgs

/-- ZopenExecutor.RunCommand (lines 86-117): run the zopen command (locally or
via SSH), classify not-found distinctly, format non-zero exits as a ❌ text
with the exit code and stderr, and substitute the ✅ marker for empty stdout. -/
def ZopenExecutor.RunCommand (cfg : Config) (w : World) (zopenArgs : List String) :
    RunResult × List Spawn :=
  let commandToRun := zopenCommandToRun cfg zopenArgs
  let result :=
    match w.run none commandToRun with
    | ExecOutcome.notFound =>
        RunResult.err ("❌ Error: Command '" ++ commandToRun.headD "" ++ "' not found. Is it in your PATH?")
    | ExecOutcome.exited code stdout stderr =>
        if code ≠ 0 then
          RunResult.ok ("❌ Error (Exit Code: " ++ toString code ++ "):\n" ++ stderr)
        else if stdout = "" then
          RunResult.ok "✅ Command successful with no output."
        else
          RunResult.ok stdout
  (result, [⟨none, commandToRun⟩])

/-- ZopenGenerateExecutor.RunCommand (lines 120-158): resolve zopen-generate
via the local PATH (regardless of the Remote flag), run it, and on non-zero
exit embed the exit code, stderr AND stdout in the ❌ text; on success append
stderr to stdout when stderr is non-empty. -/
def ZopenGenerateExecutor.RunCommand (cfg : Config) (w : World) (args : List String) :
    RunResult × List Spawn :=
  match w.lookPath "zopen-generate" with
  | none => (RunResult.err "❌ Error: zopen-generate not found in PATH", [])
  | some commandPath =>
      let result :=
        match w.run none (commandPath :: args) with
        | ExecOutcome.notFound =>
            RunResult.err ("❌ Error: Command '" ++ commandPath ++ "' not found")
        | ExecOutcome.exited code stdout stderr =>
            if code ≠ 0 then
              RunResult.ok ("❌ Error (Exit Code: " ++ toString code ++ "):\n" ++ stderr ++ "\n" ++ stdout)
            else
              let output := if stderr ≠ "" then stdout ++ "\n" ++ stderr else stdout
              if output = "" then RunResult.ok "✅ Command successful with no output."
              else RunResult.ok output
      (result, [⟨none, commandPath :: args⟩])

/-- handleZopenCommand (lines 291-299): generic zopen tool wrapper; a ❌-prefixed
output is classified as an error result. -/
def handleZopenCommand (cfg : Config) (w : World) (zopenArgs : List String) :
    CallToolResult × List Spawn :=
  match ZopenExecutor.RunCommand cfg w zopenArgs with
  | (RunResult.err msg, spawned) => ({ Text := msg, IsError := true }, spawned)
  | (RunResult.ok output, spawned) =>
      ({ Text := output, IsError := textStartsWith output "❌" }, spawned)

structure ZopenListParams where
  Verbose : Bool
deriving DecidableEq, Repr

/-- ZopenList (lines 306-312). -/
def ZopenList (cfg : Config) (w : World) (args : ZopenListParams) : CallToolResult × List Spawn :=
  let zopenArgs := ["list"]
  let zopenArgs := if args.Verbose then zopenArgs ++ ["--verbose"] else zopenArgs
  handleZopenCommand cfg w zopenArgs

structure ZopenInstallParams where
  Packages : List String
  Verbose : Bool
deriving DecidableEq, Repr

/-- ZopenInstall (lines 337-344): note the source performs no required-parameter
validation on the package list. -/
def ZopenInstall (cfg : Config) (w : World) (args : ZopenInstallParams) :
    CallToolResult × List Spawn :=
  let zopenArgs := ["install"]
  let zopenArgs := if args.Verbose then zopenArgs ++ ["--verbose"] else zopenArgs
  let zopenArgs := zopenArgs ++ args.Packages
  handleZopenCommand cfg w zopenArgs

structure ZopenRemoveParams where
  Packages : List String
  Verbose : Bool
deriving DecidableEq, Repr

/-- ZopenRemove (lines 352-359): no required-parameter validation either. -/
def ZopenRemove (cfg : Config) (w : World) (args : ZopenRemoveParams) :
    CallToolResult × List Spawn :=
  let zopenArgs := ["remove"]
  let zopenArgs := if args.Verbose then zopenArgs ++ ["--verbose"] else zopenArgs
  let zopenArgs := zopenArgs ++ args.Packages
  handleZopenCommand cfg w zopenArgs

structure ZopenInfoParams where
  Package : String
  Verbose : Bool
deriving DecidableEq, Repr

/-- ZopenInfo (lines 388-394): the package name is passed through unchecked,
empty or not. -/
def ZopenInfo (cfg : Config) (w : World) (args : ZopenInfoParams) :
    CallToolResult × List Spawn :=
  let zopenArgs := ["info", args.Package]
  let zopenArgs := if args.Verbose then zopenArgs ++ ["--verbose"] else zopenArgs
  handleZopenCommand cfg w zopenArgs

/-- ZopenVersion (lines 397-399). -/
def ZopenVersion (cfg : Config) (w : World) : CallToolResult × List Spawn :=
  handleZopenCommand cfg w ["version"]

structure ZopenCleanParams where
  Cache : Bool
  Unused : Bool
  Dangling : Bool
  All : Bool
deriving DecidableEq, Repr

/-- The argument list ZopenClean builds (lines 414-428). -/
def zopenCleanArgs (args : ZopenCleanParams) : List String :=
  let zopenArgs := ["clean"]
  let zopenArgs := if args.Cache then zopenArgs ++ ["--cache"] else zopenArgs
  let zopenArgs := if args.Unused then zopenArgs ++ ["--unused"] else zopenArgs
  let zopenArgs := if args.Dangling then zopenArgs ++ ["--dangling"] else zopenArgs
  if args.All then zopenArgs ++ ["--all"] else zopenArgs

/-- ZopenClean (lines 414-429). -/
def ZopenClean (cfg : Config) (w : World) (args : ZopenCleanParams) :
    CallToolResult × List Spawn :=
  handleZopenCommand cfg w (zopenCleanArgs args)

structure ZopenBuildParams where
  Directory : String
  Verbose : Bool
  Force : Bool
deriving DecidableEq, Repr

/-- The zopen arguments ZopenBuild builds (lines 466-472). -/
def zopenBuildArgs (args : ZopenBuildParams) : List String :=
  let zopenArgs := ["build"]
  let zopenArgs := if args.Verbose then zopenArgs ++ ["-vv"] else zopenArgs
  if args.Force then zopenArgs ++ ["-f"] else zopenArgs

/-- The SSH vector built inline by handleZopenCommandInDirectory
(lines 536-562): identical to buildSSHCommand except that the remote command
changes into the given directory before invoking zopen. -/
def sshCommandInDirectory (cfg : Config) (directory : String) (zopenArgs : List String) :
    List String :=
  let sshArgs := ["-p", toString cfg.Port]
  let sshArgs := if cfg.Key ≠ "" then sshArgs ++ ["-i", cfg.Key] else sshArgs
  let sshArgs := sshArgs ++
    ["-o", "StrictHostKeyChecking=no", "-o", "UserKnownHostsFile=/dev/null", "-o", "LogLevel=ERROR"]
  let target := if cfg.User ≠ "" then cfg.User ++ "@" ++ cfg.Host else cfg.Host
  let sshArgs := sshArgs ++ [target]
  let quotedArgs := zopenArgs.map fun arg => "\"" ++ arg ++ "\""
  let innerCommand := ". ~/.profile && cd " ++ directory ++ " && zopen " ++
    String.intercalate " " quotedArgs
  let remoteCmd := "/bin/sh -c \"" ++ innerCommand ++ "\""
  "ssh" :: (sshArgs ++ [remoteCmd])

/-- handleZopenCommandInDirectory (lines 531-600).  In remote mode the SSH
command carries the cd prefix; a failed spawn leaves Go's ProcessState nil,
whose ExitCode() is -1, with empty captured stderr. -/
def handleZopenCommandInDirectory (cfg : Config) (w : World) (directory : String)
    (zopenArgs : List String) : CallToolResult × List Spawn :=
  if cfg.Remote then
    let commandToRun := sshCommandInDirectory cfg directory zopenArgs
    let result : CallToolResult :=
      match w.run none commandToRun with
      | ExecOutcome.notFound => { Text := "❌ Error (Exit Code: -1):\n", IsError := true }
      | ExecOutcome.exited code _stdout stderr =>
          if code ≠ 0 then
            { Text := "❌ Error (Exit Code: " ++ toString code ++ "):\n" ++ stderr, IsError := true }
          else if _stdout = "" then
            { Text := "✅ Command successful with no output.", IsError := false }
          else { Text := _stdout, IsError := false }
    (result, [⟨none, commandToRun⟩])
  else
    match ZopenExecutor.RunCommand cfg w zopenArgs with
    | (RunResult.err msg, spawned) => ({ Text := msg, IsError := true }, spawned)
    | (RunResult.ok output, spawned) =>
        ({ Text := output, IsError := textStartsWith output "❌" }, spawned)

/-- ZopenBuild (lines 455-528).  Only the local branch resolves the directory
and checks its existence; on a non-zero local exit the ❌ text embeds stdout
with stderr appended; the remote branch delegates to the cd-prefixed SSH
variant without any filesystem check. -/
def ZopenBuild (cfg : Config) (w : World) (args : ZopenBuildParams) :
    CallToolResult × List Spawn :=
  if args.Directory = "" then
    ({ Text := "❌ Error: directory parameter is required", IsError := true }, [])
  else
    let zopenArgs := zopenBuildArgs args
    if !cfg.Remote then
      match w.abs args.Directory with
      | Except.error e =>
          ({ Text := "❌ Error: failed to get absolute path: " ++ e, IsError := true }, [])
      | Except.ok absPath =>
          if w.statExists absPath = false then
            ({ Text := "❌ Error: directory does not exist: " ++ absPath, IsError := true }, [])
          else
            let argv := "zopen" :: zopenArgs
            let result : CallToolResult :=
              match w.run (some absPath) argv with
              | ExecOutcome.notFound => { Text := "❌ Error (Exit Code: -1):\n", IsError := true }
              | ExecOutcome.exited code stdout stderr =>
                  let output := if stderr ≠ "" then stdout ++ "\n" ++ stderr else stdout
                  if code ≠ 0 then
                    { Text := "❌ Error (Exit Code: " ++ toString code ++ "):\n" ++ output,
                      IsError := true }
                  else { Text := output, IsError := false }
            (result, [⟨some absPath, argv⟩])
    else
      handleZopenCommandInDirectory cfg w args.Directory zopenArgs

/-- ZopenBuildHelp (lines 603-610): note the error flag is hard-coded false on
the non-error branch — there is no ❌-prefix classification here. -/
def ZopenBuildHelp (cfg : Config) (w : World) : CallToolResult × List Spawn :=
  match ZopenExecutor.RunCommand cfg w ["build", "--help"] with
  | (RunResult.err msg, spawned) => ({ Text := msg, IsError := true }, spawned)
  | (RunResult.ok output, spawned) => ({ Text := output, IsError := false }, spawned)

structure ZopenCreateRepoParams where
  Name : String
  Description : String
  User : String
deriving DecidableEq, Repr

/-- ZopenCreateRepo (lines 619-647). -/
def ZopenCreateRepo (cfg : Config) (w : World) (args : ZopenCreateRepoParams) :
    CallToolResult × List Spawn :=
  if args.Name = "" then
    ({ Text := "❌ Error: name parameter is required", IsError := true }, [])
  else
    let zopenArgs := ["create-repo", "-v", "-n", args.Name]
    let zopenArgs := if args.Description ≠ "" then zopenArgs ++ ["-d", args.Description] else zopenArgs
    let zopenArgs := if args.User ≠ "" then zopenArgs ++ ["-u", args.User] else zopenArgs
    match ZopenExecutor.RunCommand cfg w zopenArgs with
    | (RunResult.err msg, spawned) => ({ Text := msg, IsError := true }, spawned)
    | (RunResult.ok output, spawned) =>
        ({ Text := output, IsError := textStartsWith output "❌" }, spawned)

/-- Parameters of zopen_generate (lines 175-189); the Go field `Type` is
rendered TypeGo because `Type` is reserved in Lean. -/
structure ZopenGenerateParams where
  Name : String
  Description : String
  Categories : String
  License : String
  TypeGo : String
  BuildSystem : String
  StableUrl : String
  StableDeps : String
  DevUrl : String
  DevDeps : String
  BuildLine : String
  RuntimeDeps : String
  Force : Bool
deriving DecidableEq, Repr

/-- The zopen-generate argument list built by ZopenGenerate (lines 202-238):
the four required values, the always-appended non-interactive flag, then the
optional flag/value pairs for every non-empty optional field. -/
def zopenGenerateCmdArgs (args : ZopenGenerateParams) : List String :=
  let cmdArgs := ["--name", args.Name, "--description", args.Description,
    "--categories", args.Categories, "--license", args.License, "--non-interactive"]
  let cmdArgs := if args.TypeGo ≠ "" then cmdArgs ++ ["--type", args.TypeGo] else cmdArgs
  let cmdArgs := if args.BuildSystem ≠ "" then cmdArgs ++ ["--build-system", args.BuildSystem] else cmdArgs
  let cmdArgs := if args.StableUrl ≠ "" then cmdArgs ++ ["--stable-url", args.StableUrl] else cmdArgs
  let cmdArgs := if args.StableDeps ≠ "" then cmdArgs ++ ["--stable-deps", args.StableDeps] else cmdArgs
  let cmdArgs := if args.DevUrl ≠ "" then cmdArgs ++ ["--dev-url", args.DevUrl] else cmdArgs
  let cmdArgs := if args.DevDeps ≠ "" then cmdArgs ++ ["--dev-deps", args.DevDeps] else cmdArgs
  let cmdArgs := if args.BuildLine ≠ "" then cmdArgs ++ ["--build-line", args.BuildLine] else cmdArgs
  let cmdArgs := if args.RuntimeDeps ≠ "" then cmdArgs ++ ["--runtime-deps", args.RuntimeDeps] else cmdArgs
  if args.Force then cmdArgs ++ ["--force"] else cmdArgs

/-- ZopenGenerate (lines 191-254): the one generate-family handler that both
validates its required parameters and classifies ❌-prefixed output as error. -/
def ZopenGenerate (cfg : Config) (w : World) (args : ZopenGenerateParams) :
    CallToolResult × List Spawn :=
  if args.Name = "" ∨ args.Description = "" ∨ args.Categories = "" ∨ args.License = "" then
    ({ Text := "❌ Error: Required parameters missing. name, description, categories, and license are required.",
       IsError := true }, [])
  else
    match ZopenGenerateExecutor.RunCommand cfg w (zopenGenerateCmdArgs args) with
    | (RunResult.err msg, spawned) => ({ Text := msg, IsError := true }, spawned)
    | (RunResult.ok output, spawned) =>
        ({ Text := output, IsError := textStartsWith output "❌" }, spawned)

/-- ZopenGenerateHelp (lines 257-271): error flag hard-coded false on the
non-error branch. -/
def ZopenGenerateHelp (cfg : Config) (w : World) : CallToolResult × List Spawn :=
  match ZopenGenerateExecutor.RunCommand cfg w ["--help"] with
  | (RunResult.err msg, spawned) => ({ Text := msg, IsError := true }, spawned)
  | (RunResult.ok output, spawned) => ({ Text := output, IsError := false }, spawned)

/-- ZopenGenerateVersion (lines 274-288). -/
def ZopenGenerateVersion (cfg : Config) (w : World) : CallToolResult × List Spawn :=
  match ZopenGenerateExecutor.RunCommand cfg w ["--version"] with
  | (RunResult.err msg, spawned) => ({ Text := msg, IsError := true }, spawned)
  | (RunResult.ok output, spawned) => ({ Text := output, IsError := false }, spawned)

/-- ZopenGenerateListLicenses (lines 650-664). -/
def ZopenGenerateListLicenses (cfg : Config) (w : World) : CallToolResult × List Spawn :=
  match ZopenGenerateExecutor.RunCommand cfg w ["--json", "--list-licenses"] with
  | (RunResult.err msg, spawned) => ({ Text := msg, IsError := true }, spawned)
  | (RunResult.ok output, spawned) => ({ Text := output, IsError := false }, spawned)

/-- ZopenGenerateListCategories (lines 667-681). -/
def ZopenGenerateListCategories (cfg : Config) (w : World) : CallToolResult × List Spawn :=
  match ZopenGenerateExecutor.RunCommand cfg w ["--json", "--list-categories"] with
  | (RunResult.err msg, spawned) => ({ Text := msg, IsError := true }, spawned)
  | (RunResult.ok output, spawned) => ({ Text := output, IsError := false }, spawned)

/-- ZopenGenerateListBuildSystems (lines 684-698). -/
def ZopenGenerateListBuildSystems (cfg : Config) (w : World) : CallToolResult × List Spawn :=
  match ZopenGenerateExecutor.RunCommand cfg w ["--json", "--list-build-systems"] with
  | (RunResult.err msg, spawned) => ({ Text := msg, IsError := true }, spawned)
  | (RunResult.ok output, spawned) => ({ Text := output, IsError := false }, spawned)

/-- Default local-mode configuration (all flags at their defaults). -/
def cfgLocal : Config :=
  { Remote := false, Host := "", User := "", Key := "", Port := 22, ZopenPath := "" }

/-- Local configuration carrying the --zopen-path override. -/
def cfgOverride : Config := { cfgLocal with ZopenPath := "/custom/zopen" }

/-- Remote configuration of the C6 scenario: host h, user u, port 2222, key /k. -/
def cfgRemoteHU : Config :=
  { Remote := true, Host := "h", User := "u", Key := "/k", Port := 2222, ZopenPath := "" }

/-- Sample world: every execution exits 0 with stdout "out" and empty stderr;
zopen-generate resolves to /opt/tools/zopen-generate; filepath.Abs is the
identity; every directory exists. -/
def wOut : World :=
  { run := fun _ _ => ExecOutcome.exited 0 "out" "",
    lookPath := fun _ => some "/opt/tools/zopen-generate",
    abs := fun d => Except.ok d,
    statExists := fun _ => true }

/-- Sample world whose executions exit 2 with stderr "boom". -/
def wFail2 : World := { wOut with run := fun _ _ => ExecOutcome.exited 2 "" "boom" }

/-- Sample world whose executions exit 0 with stdout "out" and stderr "warn". -/
def wWarn : World := { wOut with run := fun _ _ => ExecOutcome.exited 0 "out" "warn" }

/-- Sample world whose executions exit 0 with empty stdout. -/
def wEmptyOut : World := { wOut with run := fun _ _ => ExecOutcome.exited 0 "" "" }

/-- Sample world whose executions exit 0 with a ❌-prefixed stdout. -/
def wSneaky : World := { wOut with run := fun _ _ => ExecOutcome.exited 0 "❌ odd" "" }

/-- Sample world in which no directory exists. -/
def wNoDir : World := { wOut with statExists := fun _ => false }

/-- A character-list prefix of `s` is still a prefix of `s ++ t`. -/
theorem isPrefixOf_append_right (p : List Char) :
    ∀ s t : List Char, p.isPrefixOf s = true → p.isPrefixOf (s ++ t) = true := by
  induction p with
  | nil => intro s t _; simp [List.isPrefixOf]
  | cons a as ih =>
    intro s t h
    cases s with
    | nil => simp [List.isPrefixOf] at h
    | cons b bs =>
      simp only [List.cons_append, List.isPrefixOf, Bool.and_eq_true] at h ⊢
      exact ⟨h.1, ih bs t h.2⟩

/-- textStartsWith is preserved by appending on the right. -/
theorem textStartsWith_append (s t pat : String) (h : textStartsWith s pat = true) :
    textStartsWith (s ++ t) pat = true := by
  unfold textStartsWith at h ⊢
  rw [String.data_append]
  exact isPrefixOf_append_right _ _ _ h

/-- Every non-zero-exit text produced by the executors carries the ❌ marker. -/
theorem errorText_marked (x y : String) :
    textStartsWith ("❌ Error (Exit Code: " ++ x ++ "):\n" ++ y) "❌" = true := by
  apply textStartsWith_append
  apply textStartsWith_append
  apply textStartsWith_append
  decide

/-- The generate-executor variant with stdout appended after stderr. -/
theorem errorText_marked_gen (x y z : String) :
    textStartsWith ("❌ Error (Exit Code: " ++ x ++ "):\n" ++ y ++ "\n" ++ z) "❌" = true := by
  apply textStartsWith_append
  apply textStartsWith_append
  exact errorText_marked x y

/-- C1 counterexample: invoking zopen_install with an empty (absent) required
package list does NOT return a validation error and DOES spawn a child
process (zopen install): the claimed required-parameter check is absent for
install (and likewise remove and info). -/
theorem C1_install_counterexample :
    ZopenInstall cfgLocal wOut { Packages := [], Verbose := false } =
      ({ Text := "out", IsError := false }, [{ dir := none, argv := ["zopen", "install"] }]) := by
  decide

/-- C1 (amended): only zopen_build (directory), zopen_create_repo (name) and
zopen_generate (name, description, categories, license) validate their
required parameters; with a required parameter empty they return an error
result naming the missing parameter(s) and spawn no child process.  The
install, remove and info tools perform no such validation. -/
theorem C1_amended_validation (cfg : Config) (w : World) :
    (∀ p : ZopenBuildParams, p.Directory = "" →
      ZopenBuild cfg w p =
        ({ Text := "❌ Error: directory parameter is required", IsError := true }, [])) ∧
    (∀ p : ZopenCreateRepoParams, p.Name = "" →
      ZopenCreateRepo cfg w p =
        ({ Text := "❌ Error: name parameter is required", IsError := true }, [])) ∧
    (∀ p : ZopenGenerateParams,
      p.Name = "" ∨ p.Description = "" ∨ p.Categories = "" ∨ p.License = "" →
      ZopenGenerate cfg w p =
        ({ Text := "❌ Error: Required parameters missing. name, description, categories, and license are required.",
           IsError := true }, [])) := by
  refine ⟨fun p hp => ?_, fun p hp => ?_, fun p hp => ?_⟩
  · simp [ZopenBuild, hp]
  · simp [ZopenCreateRepo, hp]
  · unfold ZopenGenerate
    rw [if_pos hp]

/-- C1 amended witness: zopen_build with an empty directory at a concrete
configuration and world. -/
theorem C1_amended_validation_witness :
    ZopenBuild cfgLocal wOut { Directory := "", Verbose := false, Force := false } =
      ({ Text := "❌ Error: directory parameter is required", IsError := true }, []) :=
  (C1_amended_validation cfgLocal wOut).1 { Directory := "", Verbose := false, Force := false } rfl

/-- C2 counterexample: with the ZopenPath override set to /custom/zopen, the
executed local vector still begins with the literal "zopen" — the override is
never consulted. -/
theorem C2_override_counterexample :
    (ZopenExecutor.RunCommand cfgOverride wOut ["list"]).2 =
      [{ dir := none, argv := ["zopen", "list"] }] ∧
    cfgOverride.ZopenPath = "/custom/zopen" ∧ ("zopen" : String) ≠ "/custom/zopen" := by
  refine ⟨rfl, rfl, by decide⟩

/-- C2 (amended): in local mode the executed argument vector is always
["zopen", command-name-and-args...], with the binary name resolved through
the process search path; the ZopenPath configuration override is parsed but
ignored, so it never replaces the first element. -/
theorem C2_amended_local_vector (cfg : Config) (w : World) (zopenArgs : List String)
    (h : cfg.Remote = false) :
    (ZopenExecutor.RunCommand cfg w zopenArgs).2 =
      [{ dir := none, argv := "zopen" :: zopenArgs }] := by
  simp [ZopenExecutor.RunCommand, zopenCommandToRun, h]

/-- C2 amended witness at a concrete local configuration. -/
theorem C2_amended_local_vector_witness :
    (ZopenExecutor.RunCommand cfgLocal wOut ["query", "foo"]).2 =
      [{ dir := none, argv := ["zopen", "query", "foo"] }] :=
  C2_amended_local_vector cfgLocal wOut ["query", "foo"] rfl

/-- C3 counterexample: zopen_build_help on a non-zero child exit returns the
❌ exit-code/stderr text but with the error flag FALSE, refuting the claim
that every tool reports IsError true on non-zero exit. -/
theorem C3_buildhelp_counterexample :
    ZopenBuildHelp cfgLocal wFail2 =
      ({ Text := "❌ Error (Exit Code: 2):\nboom", IsError := false },
       [{ dir := none, argv := ["zopen", "build", "--help"] }]) := by
  decide

/-- C3 (amended): on a non-zero child exit no call fails at the protocol
level.  For the tools routed through handleZopenCommand the result text is
the ❌ text embedding the literal exit code and the captured stderr and the
error flag is true; the generate executor's text additionally embeds stdout,
and the zopen_generate handler flags it as an error; but the wrapper tools
zopen_build_help (and the generate help/version/list tools) return the same
text with the error flag false. -/
theorem C3_amended_nonzero_exit :
    (∀ cfg w zopenArgs code stdout stderr, code ≠ 0 →
      w.run none (zopenCommandToRun cfg zopenArgs) = ExecOutcome.exited code stdout stderr →
      handleZopenCommand cfg w zopenArgs =
        ({ Text := "❌ Error (Exit Code: " ++ toString code ++ "):\n" ++ stderr, IsError := true },
         [{ dir := none, argv := zopenCommandToRun cfg zopenArgs }])) ∧
    (∀ cfg w genArgs cp code stdout stderr, code ≠ 0 →
      w.lookPath "zopen-generate" = some cp →
      w.run none (cp :: genArgs) = ExecOutcome.exited code stdout stderr →
      (ZopenGenerateExecutor.RunCommand cfg w genArgs).1 =
        RunResult.ok ("❌ Error (Exit Code: " ++ toString code ++ "):\n" ++ stderr ++ "\n" ++ stdout)) ∧
    (∀ cfg w p cp code stdout stderr,
      ¬(p.Name = "" ∨ p.Description = "" ∨ p.Categories = "" ∨ p.License = "") → code ≠ 0 →
      w.lookPath "zopen-generate" = some cp →
      w.run none (cp :: zopenGenerateCmdArgs p) = ExecOutcome.exited code stdout stderr →
      (ZopenGenerate cfg w p).1 =
        { Text := "❌ Error (Exit Code: " ++ toString code ++ "):\n" ++ stderr ++ "\n" ++ stdout,
          IsError := true }) ∧
    (∀ cfg w code stdout stderr, code ≠ 0 →
      w.run none (zopenCommandToRun cfg ["build", "--help"]) = ExecOutcome.exited code stdout stderr →
      (ZopenBuildHelp cfg w).1 =
        { Text := "❌ Error (Exit Code: " ++ toString code ++ "):\n" ++ stderr, IsError := false }) := by
  refine ⟨?_, ?_, ?_, ?_⟩
  · intro cfg w zopenArgs code stdout stderr hc hrun
    simp [handleZopenCommand, ZopenExecutor.RunCommand, hrun, hc, errorText_marked]
  · intro cfg w genArgs cp code stdout stderr hc hlook hrun
    simp [ZopenGenerateExecutor.RunCommand, hlook, hrun, hc]
  · intro cfg w p cp code stdout stderr hv hc hlook hrun
    unfold ZopenGenerate
    rw [if_neg hv]
    simp [ZopenGenerateExecutor.RunCommand, hlook, hrun, hc, errorText_marked_gen]
  · intro cfg w code stdout stderr hc hrun
    simp [ZopenBuildHelp, ZopenExecutor.RunCommand, hrun, hc]

/-- C3 amended witness: a concrete non-zero exit through handleZopenCommand. -/
theorem C3_amended_nonzero_exit_witness :
    handleZopenCommand cfgLocal wFail2 ["list"] =
      ({ Text := "❌ Error (Exit Code: 2):\nboom", IsError := true },
       [{ dir := none, argv := ["zopen", "list"] }]) :=
  C3_amended_nonzero_exit.1 cfgLocal wFail2 ["list"] 2 "" "boom" (by decide) rfl

/-- C4 counterexample: zopen_generate_help returns a result whose text begins
with the ❌ failure marker (a non-zero exit of zopen-generate) yet its error
flag is false — not every tool handler performs the ❌-prefix classification. -/
theorem C4_generatehelp_counterexample :
    (ZopenGenerateHelp cfgLocal wFail2).1 =
      { Text := "❌ Error (Exit Code: 2):\nboom\n", IsError := false } ∧
    textStartsWith "❌ Error (Exit Code: 2):\nboom\n" "❌" = true := by
  exact ⟨rfl, by decide⟩

/-- C4 (amended): the tools routed through handleZopenCommand, plus
zopen_generate and zopen_create_repo, classify a returned text that begins
with the ❌ marker as an error result; the wrapper tools zopen_build_help,
zopen_generate_help, zopen_generate_version and the three generate list tools
return the error flag false on every Process-Runner success, without the
prefix check. -/
theorem C4_amended_marker_classification (cfg : Config) (w : World) (zopenArgs : List String)
    (h : textStartsWith (handleZopenCommand cfg w zopenArgs).1.Text "❌" = true) :
    (handleZopenCommand cfg w zopenArgs).1.IsError = true := by
  unfold handleZopenCommand at h ⊢
  rcases hE : ZopenExecutor.RunCommand cfg w zopenArgs with ⟨r, tr⟩
  rw [hE] at h
  cases r with
  | ok o => exact h
  | err m => rfl

/-- C4 amended witness: a world whose command exits 0 with a ❌-prefixed
stdout still yields an error-flagged result through handleZopenCommand. -/
theorem C4_amended_marker_classification_witness :
    (handleZopenCommand cfgLocal wSneaky ["list"]).1.IsError = true :=
  C4_amended_marker_classification cfgLocal wSneaky ["list"] (by decide)

/-- The last element of a cons-of-append-singleton list. -/
theorem getLast?_cons_append_singleton (a r : String) (l : List String) :
    (a :: (l ++ [r])).getLast? = some r := by
  rw [← List.cons_append]
  exact List.getLast?_concat _

/-- A string with a newline spliced in the middle is never empty. -/
theorem append_newline_ne_empty (s t : String) : ¬(s ++ "\n" ++ t = "") := by
  intro h
  have hlen := congrArg String.length h
  rw [String.length_append, String.length_append] at hlen
  have h1 : ("\n" : String).length = 1 := rfl
  have h0 : ("" : String).length = 0 := rfl
  rw [h1, h0] at hlen
  omega

/-- C5 counterexample: in remote mode zopen_build performs no
directory-existence check — with a directory the filesystem reports absent
(every statExists is false in wNoDir) the SSH child process is still
spawned, refuting "no child process is spawned" for a non-existent
directory. -/
theorem C5_remote_counterexample :
    (ZopenBuild cfgRemoteHU wNoDir { Directory := "/nope", Verbose := false, Force := false }).2 ≠
      [] := by
  decide

/-- C5 (amended): in LOCAL mode a non-existent directory yields an error
result whose text carries the resolved absolute path and no child process is
spawned, and an existing directory makes the build run with the child's
working directory set to that absolute path; in REMOTE mode no existence
check is performed and the single SSH child carries a remote command whose
final element changes into the directory before invoking zopen. -/
theorem C5_amended_build_directory (cfg : Config) (w : World) (p : ZopenBuildParams) (A : String) :
    (cfg.Remote = false → p.Directory ≠ "" → w.abs p.Directory = Except.ok A →
      w.statExists A = false →
      ZopenBuild cfg w p =
        ({ Text := "❌ Error: directory does not exist: " ++ A, IsError := true }, [])) ∧
    (cfg.Remote = false → p.Directory ≠ "" → w.abs p.Directory = Except.ok A →
      w.statExists A = true →
      (ZopenBuild cfg w p).2 = [{ dir := some A, argv := "zopen" :: zopenBuildArgs p }]) ∧
    (cfg.Remote = true → p.Directory ≠ "" →
      (ZopenBuild cfg w p).2 =
        [{ dir := none, argv := sshCommandInDirectory cfg p.Directory (zopenBuildArgs p) }] ∧
      (sshCommandInDirectory cfg p.Directory (zopenBuildArgs p)).getLast? =
        some ("/bin/sh -c \"" ++
          (". ~/.profile && cd " ++ p.Directory ++ " && zopen " ++
            String.intercalate " " ((zopenBuildArgs p).map fun arg => "\"" ++ arg ++ "\"")) ++
          "\"")) := by
  refine ⟨?_, ?_, ?_⟩
  · intro hR hD habs hstat
    simp [ZopenBuild, hR, hD, habs, hstat]
  · intro hR hD habs hstat
    simp [ZopenBuild, hR, hD, habs, hstat]
  · intro hR hD
    constructor
    · simp [ZopenBuild, hR, hD, handleZopenCommandInDirectory]
    · exact getLast?_cons_append_singleton _ _ _

/-- C5 amended witness: concrete local build against a missing directory. -/
theorem C5_amended_build_directory_witness :
    ZopenBuild cfgLocal wNoDir { Directory := "/nope", Verbose := false, Force := false } =
      ({ Text := "❌ Error: directory does not exist: /nope", IsError := true }, []) :=
  (C5_amended_build_directory cfgLocal wNoDir
      { Directory := "/nope", Verbose := false, Force := false } "/nope").1
    rfl (by decide) rfl rfl

/-- C6: in remote mode with host=h, user=u, port=2222, key=/k, the SSH vector
built for arguments ["list","--verbose"] is exactly the expected one; in
particular it contains the target u@h, the port value 2222, the key value /k,
the three hardened options, and ends with the /bin/sh -c command that sources
~/.profile and invokes zopen with each argument double-quoted and
space-joined. -/
theorem C6_ssh_vector :
    buildSSHCommand cfgRemoteHU ["list", "--verbose"] =
      ["ssh", "-p", "2222", "-i", "/k", "-o", "StrictHostKeyChecking=no", "-o",
       "UserKnownHostsFile=/dev/null", "-o", "LogLevel=ERROR", "u@h",
       "/bin/sh -c \". ~/.profile && zopen \"list\" \"--verbose\"\""] ∧
    "u@h" ∈ buildSSHCommand cfgRemoteHU ["list", "--verbose"] ∧
    "2222" ∈ buildSSHCommand cfgRemoteHU ["list", "--verbose"] ∧
    "/k" ∈ buildSSHCommand cfgRemoteHU ["list", "--verbose"] ∧
    "StrictHostKeyChecking=no" ∈ buildSSHCommand cfgRemoteHU ["list", "--verbose"] ∧
    "UserKnownHostsFile=/dev/null" ∈ buildSSHCommand cfgRemoteHU ["list", "--verbose"] ∧
    "LogLevel=ERROR" ∈ buildSSHCommand cfgRemoteHU ["list", "--verbose"] ∧
    (buildSSHCommand cfgRemoteHU ["list", "--verbose"]).getLast? =
      some "/bin/sh -c \". ~/.profile && zopen \"list\" \"--verbose\"\"" := by
  decide

/-- C7 counterexample: a zopen-generate execution that exits 0 with stdout
"out" and stderr "warn" returns the text "out\nwarn", not the stdout
content. -/
theorem C7_generate_stderr_counterexample :
    (ZopenGenerateExecutor.RunCommand cfgLocal wWarn ["--help"]).1 =
      RunResult.ok "out\nwarn" ∧ ("out\nwarn" : String) ≠ "out" := by
  exact ⟨rfl, by decide⟩

/-- C7 (amended): on exit code 0 the zopen executor returns exactly the
captured stdout, substituting the ✅ marker when stdout is empty, and the
handleZopenCommand error flag is false whenever the stdout does not begin
with ❌; the generate executor behaves that way only when stderr is empty —
with non-empty stderr it returns stdout ++ "\n" ++ stderr instead. -/
theorem C7_amended_success_output :
    (∀ cfg w zopenArgs stdout stderr,
      w.run none (zopenCommandToRun cfg zopenArgs) = ExecOutcome.exited 0 stdout stderr →
      (ZopenExecutor.RunCommand cfg w zopenArgs).1 =
        (if stdout = "" then RunResult.ok "✅ Command successful with no output."
         else RunResult.ok stdout)) ∧
    (∀ cfg w zopenArgs stdout stderr,
      w.run none (zopenCommandToRun cfg zopenArgs) = ExecOutcome.exited 0 stdout stderr →
      textStartsWith stdout "❌" = false →
      (handleZopenCommand cfg w zopenArgs).1.IsError = false) ∧
    (∀ cfg w genArgs cp stdout,
      w.lookPath "zopen-generate" = some cp →
      w.run none (cp :: genArgs) = ExecOutcome.exited 0 stdout "" →
      (ZopenGenerateExecutor.RunCommand cfg w genArgs).1 =
        (if stdout = "" then RunResult.ok "✅ Command successful with no output."
         else RunResult.ok stdout)) ∧
    (∀ cfg w genArgs cp stdout stderr,
      w.lookPath "zopen-generate" = some cp →
      w.run none (cp :: genArgs) = ExecOutcome.exited 0 stdout stderr → stderr ≠ "" →
      (ZopenGenerateExecutor.RunCommand cfg w genArgs).1 =
        RunResult.ok (stdout ++ "\n" ++ stderr)) := by
  refine ⟨?_, ?_, ?_, ?_⟩
  · intro cfg w zopenArgs stdout stderr hrun
    simp [ZopenExecutor.RunCommand, hrun]
  · intro cfg w zopenArgs stdout stderr hrun hpre
    by_cases hout : stdout = ""
    · simp [handleZopenCommand, ZopenExecutor.RunCommand, hrun, hout]
      decide
    · simp [handleZopenCommand, ZopenExecutor.RunCommand, hrun, hout, hpre]
  · intro cfg w genArgs cp stdout hlook hrun
    simp [ZopenGenerateExecutor.RunCommand, hlook, hrun]
  · intro cfg w genArgs cp stdout stderr hlook hrun hs
    simp [ZopenGenerateExecutor.RunCommand, hlook, hrun, hs, append_newline_ne_empty]

/-- C7 amended witness: exit 0 with empty stdout yields the ✅ marker. -/
theorem C7_amended_success_output_witness :
    (ZopenExecutor.RunCommand cfgLocal wEmptyOut ["version"]).1 =
      RunResult.ok "✅ Command successful with no output." :=
  C7_amended_success_output.1 cfgLocal wEmptyOut ["version"] "" "" rfl

/-- C8: every one of the 16 boolean combinations of zopen_clean maps to
"clean" followed by exactly the corresponding subset of --cache, --unused,
--dangling, --all, in declared order and without duplicates, and the handler
passes exactly that list on to the zopen command pipeline. -/
theorem C8_clean_flags :
    (∀ c u d a : Bool,
      zopenCleanArgs { Cache := c, Unused := u, Dangling := d, All := a } =
        "clean" :: ((if c then ["--cache"] else []) ++ (if u then ["--unused"] else []) ++
          (if d then ["--dangling"] else []) ++ (if a then ["--all"] else [])) ∧
      (zopenCleanArgs { Cache := c, Unused := u, Dangling := d, All := a }).Nodup) ∧
    (∀ cfg w p, ZopenClean cfg w p = handleZopenCommand cfg w (zopenCleanArgs p)) := by
  constructor
  · decide
  · intro cfg w p
    rfl

/-- C9: the zopen-generate executor ignores the configuration — the Remote
flag included — so every generate-family tool behaves identically under any
two configurations, and the single child it spawns runs the binary resolved
by the local PATH lookup of "zopen-generate" with no SSH wrapping. -/
theorem C9_generate_always_local (cfg cfg' : Config) (w : World) (genArgs : List String)
    (cp : String) (h : w.lookPath "zopen-generate" = some cp) :
    ZopenGenerateExecutor.RunCommand cfg w genArgs =
      ZopenGenerateExecutor.RunCommand cfg' w genArgs ∧
    (ZopenGenerateExecutor.RunCommand cfg w genArgs).2 =
      [{ dir := none, argv := cp :: genArgs }] ∧
    (∀ p, ZopenGenerate cfg w p = ZopenGenerate cfg' w p) ∧
    ZopenGenerateHelp cfg w = ZopenGenerateHelp cfg' w ∧
    ZopenGenerateVersion cfg w = ZopenGenerateVersion cfg' w ∧
    ZopenGenerateListLicenses cfg w = ZopenGenerateListLicenses cfg' w ∧
    ZopenGenerateListCategories cfg w = ZopenGenerateListCategories cfg' w ∧
    ZopenGenerateListBuildSystems cfg w = ZopenGenerateListBuildSystems cfg' w := by
  refine ⟨rfl, ?_, fun p => rfl, rfl, rfl, rfl, rfl, rfl⟩
  simp [ZopenGenerateExecutor.RunCommand, h]

/-- C9 witness: a remote-mode configuration still spawns the locally resolved
zopen-generate binary. -/
theorem C9_generate_always_local_witness :
    (ZopenGenerateExecutor.RunCommand cfgRemoteHU wOut ["--help"]).2 =
      [{ dir := none, argv := ["/opt/tools/zopen-generate", "--help"] }] :=
  (C9_generate_always_local cfgRemoteHU cfgLocal wOut ["--help"] "/opt/tools/zopen-generate"
    rfl).2.1

/-- C10: the read-only tool handlers are deterministic functions of the
parameters, the configuration and the modelled external behaviour: two calls
with equal inputs produce identical results (text and error flag). -/
theorem C10_readonly_deterministic (cfg cfg' : Config) (w w' : World)
    (p p' : ZopenListParams) (hc : cfg = cfg') (hw : w = w') (hp : p = p') :
    ZopenList cfg w p = ZopenList cfg' w' p' ∧ ZopenVersion cfg w = ZopenVersion cfg' w' := by
  subst hc
  subst hw
  subst hp
  exact ⟨rfl, rfl⟩

/-- C10 witness at a concrete configuration, world and parameter object. -/
theorem C10_readonly_deterministic_witness :
    ZopenList cfgLocal wOut { Verbose := false } = ZopenList cfgLocal wOut { Verbose := false } ∧
    ZopenVersion cfgLocal wOut = ZopenVersion cfgLocal wOut :=
  C10_readonly_deterministic cfgLocal cfgLocal wOut wOut
    { Verbose := false } { Verbose := false } rfl rfl rfl
